import Mathlib

/-!
Verification of the assignment review workflow of the
University-Assignment-Approval-System repository.

The development shallowly embeds the Express route handlers that implement
the assignment lifecycle (submit, resubmit, reject, forward, OTP-gated
approve) together with the in-memory OTP store, and proves or refutes the
frozen behavioural claims about them.

Conventions of the embedding:
* Database rows (users, assignments, history, notifications) are Lean
  structures collected in a `Db` record of lists; Prisma `findFirst` /
  `findUnique` calls become `List.find?` with the same `where` predicate,
  `update` becomes a map over the list, `create` appends.
* Statuses and roles stay `String`s, exactly as in the code.
* Nondeterministic inputs of a request (the clock `Date.now()`, the random
  6-digit OTP, whether the SMTP send succeeds, whether the try/catch-guarded
  history and notification writes succeed, whether a `prisma.$transaction`
  commits) are passed in an `Effects` record.
* `prisma.$transaction [...]` is modelled atomically: if the transaction
  fails nothing is applied and the route answers 500; the sequential writes
  of the student routes are modelled write-by-write, with the try/catch
  blocks swallowing a failed history or notification write, as in the code.
* The numeric-id parse guards (`parseInt` / `isNaN`) on route parameters are
  elided by taking ids as `Nat`.
* HTTP answers are an `Outcome`: `ok message` for a 200 `success:true`
  response, `err status message` for an error response, with the exact
  message strings of the source.
-/

namespace AssignApproval

/-- Decoded JWT payload attached by the `authenticateToken` middleware
(src/backend/dist/middleware/auth.d.ts: `AuthUser`). -/
structure AuthUser where
  id : Nat
  email : String
  role : String
deriving DecidableEq

/-- Row of the `user` table (fields used by the embedded routes). -/
structure User where
  id : Nat
  name : String
  email : String
  phone : String
  role : String
  departmentId : Option Nat
deriving DecidableEq

/-- Row of the `department` table. -/
structure Department where
  id : Nat
  name : String
deriving DecidableEq

/-- Row of the `assignment` table. -/
structure Assignment where
  id : Nat
  title : String
  description : Option String
  category : String
  status : String
  filePath : Option String
  studentId : Nat
  reviewerId : Option Nat
  createdAt : Nat
  submittedAt : Option Nat
deriving DecidableEq

/-- Row of the `assignmentHistory` table. -/
structure HistoryEntry where
  assignmentId : Nat
  reviewerId : Nat
  action : String
  remark : Option String
  signature : String
  createdAt : Nat
deriving DecidableEq

/-- Row of the `notification` table. -/
structure Notification where
  userId : Nat
  assignmentId : Nat
  message : String
  type : String
  read : Bool
  createdAt : Nat
deriving DecidableEq

/-- Relational state touched by the embedded routes. -/
structure Db where
  departments : List Department
  users : List User
  assignments : List Assignment
  history : List HistoryEntry
  notifications : List Notification
deriving DecidableEq

/-- Value stored in the in-memory OTP map
(src/backend/scripts/create-admin.ts, `otpStore`). -/
structure OtpRecord where
  otp : String
  expiresAt : Nat
  remarks : Option String
  signature : Option String
deriving DecidableEq

/-- Key of the OTP map.  The code uses the string
`assignmentId + ":" + professorId`; since `:` occurs in no decimal numeral
that string is in bijection with the pair, which we use directly. -/
abbrev OtpKey := Nat × Nat

/-- The in-memory OTP map, as an association list with `Map.set` replace
semantics (`otpSet` removes any previous entry of the key). -/
abbrev OtpStore := List (OtpKey × OtpRecord)

/-- Request-scoped nondeterminism: clock, random OTP draw, and success of
the fallible external or guarded steps. -/
structure Effects where
  now : Nat
  otpCode : String
  emailOk : Bool
  historyOk : Bool
  notifOk : Bool
  txOk : Bool
deriving DecidableEq

/-- Multipart upload attached to a request (`req.file`). -/
structure UploadFile where
  path : String
  mimetype : String
deriving DecidableEq

/-- HTTP answer of a route: 200 success or an error status, with the exact
message string of the source. -/
inductive Outcome where
  | ok (message : String)
  | err (status : Nat) (message : String)
deriving DecidableEq

/-- Bool test for a success answer. -/
def Outcome.isOk : Outcome → Bool
  | .ok _ => true
  | .err _ _ => false

/-- Result of a route that touches only the database. -/
structure DbOut where
  res : Outcome
  db : Db
deriving DecidableEq

/-- Result of a route that touches the database and the OTP map. -/
structure OtpOut where
  res : Outcome
  db : Db
  store : OtpStore
deriving DecidableEq

/-! ### JavaScript string helpers -/

/-- Whitespace for `String.prototype.trim` (the code only ever trims ASCII
text, so the ASCII whitespace characters suffice). -/
def isJsWhitespace (c : Char) : Bool :=
  c == ' ' || c == '\t' || c == '\n' || c == '\r' || c == '\x0b' || c == '\x0c'

/-- `s.trim()`: strip whitespace from both ends. -/
def jsTrim (s : String) : String :=
  String.mk (((s.data.dropWhile isJsWhitespace).reverse.dropWhile isJsWhitespace).reverse)

/-- `s.slice(0, n)` for `n ≥ 0`. -/
def jsSlice (s : String) (n : Nat) : String :=
  String.mk (s.data.take n)

/-- JavaScript truthiness of an optional string (`undefined`, `null` and
`""` are falsy). -/
def jsTruthy : Option String → Bool
  | some s => s != ""
  | none => false

/-- Normalize an optional string to `none` when it is falsy, as the spreads
`...(remarks ? \x7b remarks \x7d : \x7b\x7d)` do. -/
def truthyOpt : Option String → Option String
  | some s => if s == "" then none else some s
  | none => none

/-- Stand-in for `crypto.createHash('sha256').update(s).digest('hex')`
(src/backend/scripts/create-admin.ts, `signatureHash`).  The digest itself
is an external black box; no claim depends on its value, only on the fact
that the stored signature is the image of the input under this function. -/
def signatureHash (signature : String) : String :=
  "sha256:" ++ signature

/-! ### Database and OTP-store helpers -/

/-- `prisma.user.findUnique(\x7b where: \x7b id \x7d \x7d)`. -/
def findUser (db : Db) (uid : Nat) : Option User :=
  db.users.find? (fun u => u.id == uid)

/-- `prisma.user.findFirst(\x7b where: \x7b id, role \x7d \x7d)`. -/
def findUserWithRole (db : Db) (uid : Nat) (role : String) : Option User :=
  db.users.find? (fun u => u.id == uid && u.role == role)

/-- `prisma.user.findFirst` of the forward route: id, same department as the
forwarder, role `PROFESSOR` or `HOD`. -/
def findForwardRecipient (db : Db) (uid deptId : Nat) : Option User :=
  db.users.find? (fun u =>
    u.id == uid && u.departmentId == some deptId && (u.role == "PROFESSOR" || u.role == "HOD"))

/-- `prisma.department.findUnique(\x7b where: \x7b id \x7d \x7d)`. -/
def findDepartment (db : Db) (did : Nat) : Option Department :=
  db.departments.find? (fun d => d.id == did)

/-- `prisma.assignment.findFirst(\x7b where: \x7b id, studentId \x7d \x7d)` of the
student routes. -/
def findOwnedAssignment (db : Db) (aid sid : Nat) : Option Assignment :=
  db.assignments.find? (fun a => a.id == aid && a.studentId == sid)

/-- `prisma.assignment.findFirst(\x7b where: \x7b id, reviewerId, status \x7d \x7d)` of
the professor routes, with `status` drawn from `statuses`. -/
def findReviewAssignment (db : Db) (aid revId : Nat) (statuses : List String) :
    Option Assignment :=
  db.assignments.find? (fun a =>
    a.id == aid && a.reviewerId == some revId && statuses.contains a.status)

/-- First assignment row with the given id (used to state what a route
left in the table). -/
def assignmentById (db : Db) (aid : Nat) : Option Assignment :=
  db.assignments.find? (fun a => a.id == aid)

/-- Status of the first assignment row with the given id. -/
def statusOf (db : Db) (aid : Nat) : Option String :=
  (assignmentById db aid).map Assignment.status

/-- `prisma.assignment.update(\x7b where: \x7b id \x7d, data \x7d)`. -/
def updateAssignment (db : Db) (aid : Nat) (f : Assignment → Assignment) : Db :=
  { db with assignments := db.assignments.map (fun a => if a.id == aid then f a else a) }

/-- `prisma.assignmentHistory.create`. -/
def appendHistory (db : Db) (h : HistoryEntry) : Db :=
  { db with history := db.history ++ [h] }

/-- `prisma.notification.create`. -/
def appendNotice (db : Db) (n : Notification) : Db :=
  { db with notifications := db.notifications ++ [n] }

/-- `otpStore.get(key)`. -/
def otpGet (store : OtpStore) (k : OtpKey) : Option OtpRecord :=
  (store.find? (fun e => e.1 == k)).map (fun e => e.2)

/-- `otpStore.set(key, v)`: at most one entry per key, a second `set`
replaces the first. -/
def otpSet (store : OtpStore) (k : OtpKey) (v : OtpRecord) : OtpStore :=
  (k, v) :: store.filter (fun e => e.1 != k)

/-- `otpStore.delete(key)`. -/
def otpDelete (store : OtpStore) (k : OtpKey) : OtpStore :=
  store.filter (fun e => e.1 != k)

/-- Number of entries stored under a key. -/
def otpCountKey (store : OtpStore) (k : OtpKey) : Nat :=
  store.countP (fun e => e.1 == k)

/-- `OTP_EXPIRY_MS = 10 * 60 * 1000` (10 minutes). -/
def OTP_EXPIRY_MS : Nat := 10 * 60 * 1000

/-- `requireRole(...roles)` middleware: the decoded JWT role must be one of
the listed roles, otherwise 403 `Forbidden: insufficient role`. -/
def requireRole (roles : List String) (u : AuthUser) : Bool :=
  roles.contains u.role

/-! ### Route handlers -/

/-- Embeds `POST /student/assignments/:id/submit`
(src/backend/dist/routes/student.js).  The JS guard `!reviewerId` is also
true for the number `0`, hence the extra zero test.  The history and
notification creations sit in try/catch blocks whose failures are logged
and swallowed; `eff.historyOk` / `eff.notifOk` say whether those two writes
succeed. -/
def submitAssignment (db : Db) (eff : Effects) (caller : AuthUser)
    (assignmentId : Nat) (reviewerId : Option Nat) : DbOut :=
  if !(requireRole ["STUDENT", "PROFESSOR", "HOD"] caller) then
    { res := .err 403 "Forbidden: insufficient role", db := db }
  else
    match reviewerId with
    | none => { res := .err 400 "Reviewer ID is required", db := db }
    | some rid =>
      if rid == 0 then
        { res := .err 400 "Reviewer ID is required", db := db }
      else
        match findOwnedAssignment db assignmentId caller.id with
        | none => { res := .err 404 "Assignment not found", db := db }
        | some assignment =>
          if assignment.status != "DRAFT" then
            { res := .err 400 ("Assignment cannot be submitted. Current status: " ++
                assignment.status ++ ". Only DRAFT assignments can be submitted."), db := db }
          else
            match findUserWithRole db rid "PROFESSOR" with
            | none => { res := .err 404 "Reviewer not found or is not a professor", db := db }
            | some reviewer =>
              match findUser db caller.id with
              | none =>
                { res := .err 400 "Reviewer must be from the same department as the student",
                  db := db }
              | some student =>
                if student.departmentId != reviewer.departmentId then
                  { res := .err 400 "Reviewer must be from the same department as the student",
                    db := db }
                else
                  let db1 := updateAssignment db assignmentId (fun a =>
                    { a with status := "SUBMITTED", reviewerId := some rid,
                             submittedAt := some eff.now })
                  let db2 := if eff.historyOk then
                      appendHistory db1
                        { assignmentId := assignmentId, reviewerId := rid,
                          action := "SUBMITTED",
                          remark := some ("Assignment submitted for review to " ++ reviewer.name),
                          signature := reviewer.name, createdAt := eff.now }
                    else db1
                  let db3 := if eff.notifOk then
                      appendNotice db2
                        { userId := rid, assignmentId := assignmentId,
                          message := "New assignment \"" ++ assignment.title ++
                            "\" submitted by student for review",
                          type := "ASSIGNMENT_SUBMITTED", read := false, createdAt := eff.now }
                    else db2
                  { res := .ok "Assignment submitted successfully for review", db := db3 }

/-- Embeds `POST /student/assignments/:id/resubmit`
(src/backend/dist/routes/student.js).  File-cleanup `unlinkSync` calls on
the error paths only touch the uploaded temp file, not the modelled state.
As in `submitAssignment`, the history and notification writes are guarded
by try/catch and controlled by `eff.historyOk` / `eff.notifOk`. -/
def resubmitAssignment (db : Db) (eff : Effects) (caller : AuthUser)
    (assignmentId : Nat) (description : Option String) (file : Option UploadFile) : DbOut :=
  if !(requireRole ["STUDENT", "PROFESSOR", "HOD"] caller) then
    { res := .err 403 "Forbidden: insufficient role", db := db }
  else
    match findOwnedAssignment db assignmentId caller.id with
    | none => { res := .err 404 "Assignment not found", db := db }
    | some assignment =>
      if assignment.status != "REJECTED" then
        { res := .err 400 ("Assignment cannot be resubmitted. Current status: " ++
            assignment.status ++ ". Only REJECTED assignments can be resubmitted."), db := db }
      else
        match assignment.reviewerId with
        | none => { res := .err 400 "Original reviewer not found. Cannot resubmit.", db := db }
        | some revId =>
          match findUser db revId with
          | none => { res := .err 400 "Original reviewer not found. Cannot resubmit.", db := db }
          | some _reviewer =>
            if (match file with
                | some f => f.mimetype != "application/pdf"
                | none => false) then
              { res := .err 400 "Only PDF files are allowed", db := db }
            else
              let db1 := updateAssignment db assignmentId (fun a =>
                { a with status := "SUBMITTED", submittedAt := some eff.now,
                         description := match description with
                           | some d => if jsTrim d == "" then none else some (jsTrim d)
                           | none => a.description,
                         filePath := match file with
                           | some f => some f.path
                           | none => a.filePath })
              let db2 := if eff.historyOk then
                  appendHistory db1
                    { assignmentId := assignmentId, reviewerId := revId,
                      action := "SUBMITTED",
                      remark := some (match file with
                        | some _ => "Assignment resubmitted with new file. " ++
                            (if jsTruthy description then "Description updated." else "")
                        | none => "Assignment resubmitted. " ++
                            (if jsTruthy description then "Description updated."
                             else "Original file retained.")),
                      signature := "Student Resubmission", createdAt := eff.now }
                else db1
              let db3 := if eff.notifOk then
                  appendNotice db2
                    { userId := revId, assignmentId := assignmentId,
                      message := "Assignment \"" ++ assignment.title ++
                        "\" has been resubmitted by the student",
                      type := "ASSIGNMENT_RESUBMITTED", read := false, createdAt := eff.now }
                else db2
              { res := .ok "Assignment resubmitted successfully", db := db3 }

/-- Embeds `POST /professor/assignments/:id/reject`
(src/backend/scripts/create-admin.ts).  The route is gated by
`requireRole('PROFESSOR')` (no HOD).  The status update, history append and
notification create run in one `prisma.$transaction`, modelled atomically
through `eff.txOk`.  The rejection email sent afterwards does not touch the
modelled state. -/
def rejectAssignment (db : Db) (eff : Effects) (caller : AuthUser)
    (assignmentId : Nat) (remark : Option String) : DbOut :=
  if !(requireRole ["PROFESSOR"] caller) then
    { res := .err 403 "Forbidden: insufficient role", db := db }
  else
    let trimmedRemark := match remark with
      | some r => jsTrim r
      | none => ""
    if trimmedRemark.length < 10 then
      { res := .err 400
          "Feedback is required and must be at least 10 characters so the student can improve.",
        db := db }
    else
      match findReviewAssignment db assignmentId caller.id ["SUBMITTED"] with
      | none =>
        { res := .err 404 "Assignment not found or not pending your review", db := db }
      | some assignment =>
        let signatureForHistory := match findUser db caller.id with
          | some p => p.name
          | none => caller.email
        if !eff.txOk then
          { res := .err 500 "Internal server error", db := db }
        else
          let db1 := updateAssignment db assignmentId (fun a =>
            { a with status := "REJECTED", reviewerId := none })
          let db2 := appendHistory db1
            { assignmentId := assignmentId, reviewerId := caller.id, action := "REJECTED",
              remark := some trimmedRemark, signature := signatureForHistory,
              createdAt := eff.now }
          let db3 := appendNotice db2
            { userId := assignment.studentId, assignmentId := assignmentId,
              message := "Your assignment \"" ++ assignment.title ++
                "\" has been rejected. Feedback: " ++ jsSlice trimmedRemark 100 ++
                (if trimmedRemark.length > 100 then "..." else ""),
              type := "ASSIGNMENT_REJECTED", read := false, createdAt := eff.now }
          { res := .ok "Assignment rejected. The student has been notified and can resubmit.",
            db := db3 }

/-- Embeds `POST /professor/assignments/:id/forward`
(src/backend/scripts/create-admin.ts).  Gated by
`requireRole('PROFESSOR', 'HOD')`; the recipient is validated against the
forwarder's department; the three writes run in one `prisma.$transaction`. -/
def forwardAssignment (db : Db) (eff : Effects) (caller : AuthUser)
    (assignmentId : Nat) (newReviewerId : Option Nat) (note : Option String) : DbOut :=
  if !(requireRole ["PROFESSOR", "HOD"] caller) then
    { res := .err 403 "Forbidden: insufficient role", db := db }
  else
    match newReviewerId with
    | none => { res := .err 400 "Please select a recipient to forward to", db := db }
    | some nrid =>
      if nrid == caller.id then
        { res := .err 400 "You cannot forward an assignment to yourself", db := db }
      else
        match findUser db caller.id with
        | none =>
          { res := .err 400 "You must be in a department to forward assignments", db := db }
        | some current =>
          match current.departmentId with
          | none =>
            { res := .err 400 "You must be in a department to forward assignments", db := db }
          | some deptId =>
            match findForwardRecipient db nrid deptId with
            | none =>
              { res := .err 400
                  "Selected recipient is not a valid professor or HOD in your department",
                db := db }
            | some _newReviewer =>
              match findReviewAssignment db assignmentId caller.id
                  ["SUBMITTED", "FORWARDED"] with
              | none =>
                { res := .err 404 "Assignment not found or not under your review", db := db }
              | some assignment =>
                let forwardNote := match note with
                  | some n => jsTrim n
                  | none => ""
                if !eff.txOk then
                  { res := .err 500 "Internal server error", db := db }
                else
                  let db1 := updateAssignment db assignmentId (fun a =>
                    { a with reviewerId := some nrid, status := "FORWARDED" })
                  let db2 := appendHistory db1
                    { assignmentId := assignmentId, reviewerId := caller.id,
                      action := "FORWARDED",
                      remark := if forwardNote == "" then none else some forwardNote,
                      signature := current.name, createdAt := eff.now }
                  let db3 := appendNotice db2
                    { userId := nrid, assignmentId := assignmentId,
                      message := if forwardNote == "" then
                          "Assignment \"" ++ assignment.title ++
                            "\" has been forwarded to you for review."
                        else
                          "Assignment \"" ++ assignment.title ++
                            "\" forwarded to you for review. Note: " ++
                            jsSlice forwardNote 150 ++
                            (if forwardNote.length > 150 then "..." else ""),
                      type := "ASSIGNMENT_FORWARDED", read := false, createdAt := eff.now }
                  { res := .ok
                      "Assignment forwarded successfully. The new reviewer has been notified.",
                    db := db3 }

/-- Embeds `POST /professor/assignments/:id/approve/request-otp`
(src/backend/scripts/create-admin.ts).  Gated by `requireRole('PROFESSOR')`
(no HOD).  A fresh code is stored under `(assignmentId, professorId)` with a
10-minute expiry; if the OTP email fails the freshly stored record is
deleted and the route answers 500. -/
def requestApprovalOtp (db : Db) (store : OtpStore) (eff : Effects) (caller : AuthUser)
    (assignmentId : Nat) (remarks signature : Option String) : OtpOut :=
  if !(requireRole ["PROFESSOR"] caller) then
    { res := .err 403 "Forbidden: insufficient role", db := db, store := store }
  else
    match findReviewAssignment db assignmentId caller.id ["SUBMITTED"] with
    | none =>
      { res := .err 404 "Assignment not found or not pending your review",
        db := db, store := store }
    | some _assignment =>
      let key : OtpKey := (assignmentId, caller.id)
      let store1 := otpSet store key
        { otp := eff.otpCode, expiresAt := eff.now + OTP_EXPIRY_MS,
          remarks := truthyOpt remarks, signature := truthyOpt signature }
      if !eff.emailOk then
        { res := .err 500 "Failed to send OTP to your email. Please try again.",
          db := db, store := otpDelete store1 key }
      else
        { res := .ok "OTP sent to your email. Enter it below to approve.",
          db := db, store := store1 }

/-- Embeds `POST /professor/assignments/:id/approve/verify`
(src/backend/scripts/create-admin.ts).  Gated by `requireRole('PROFESSOR')`.
The stored record is matched against the submitted code; on success the
record is consumed, the assignment is re-validated to still be SUBMITTED
with the same reviewer, and the three writes run in one
`prisma.$transaction`.  `professorName` is the callers email, as in the
source (line 442). -/
def verifyApprovalOtp (db : Db) (store : OtpStore) (eff : Effects) (caller : AuthUser)
    (assignmentId : Nat) (otp : String) (remarks signature : Option String) : OtpOut :=
  if !(requireRole ["PROFESSOR"] caller) then
    { res := .err 403 "Forbidden: insufficient role", db := db, store := store }
  else if otp == "" then
    { res := .err 400 "OTP is required", db := db, store := store }
  else
    let key : OtpKey := (assignmentId, caller.id)
    match otpGet store key with
    | none =>
      { res := .err 400 "No OTP found. Please request a new one.", db := db, store := store }
    | some stored =>
      if eff.now > stored.expiresAt then
        { res := .err 400 "OTP has expired. Please request a new one.",
          db := db, store := otpDelete store key }
      else if stored.otp != jsTrim otp then
        { res := .err 400 "Invalid OTP. Please try again.", db := db, store := store }
      else
        let professorName := caller.email
        let finalRemarks := (remarks.or stored.remarks).getD ""
        let finalSignature := (signature.or stored.signature).getD professorName
        let signatureForHistory := if finalSignature != "" then signatureHash finalSignature
          else match findUser db caller.id with
            | some p => p.name
            | none => professorName
        match findReviewAssignment db assignmentId caller.id ["SUBMITTED"] with
        | none =>
          { res := .err 404 "Assignment not found or already processed",
            db := db, store := otpDelete store key }
        | some assignment =>
          if !eff.txOk then
            { res := .err 500 "Internal server error", db := db, store := store }
          else
            let db1 := updateAssignment db assignmentId (fun a =>
              { a with status := "APPROVED" })
            let db2 := appendHistory db1
              { assignmentId := assignmentId, reviewerId := caller.id, action := "APPROVED",
                remark := if finalRemarks == "" then none else some finalRemarks,
                signature := signatureForHistory, createdAt := eff.now }
            let db3 := appendNotice db2
              { userId := assignment.studentId, assignmentId := assignmentId,
                message := "Your assignment \"" ++ assignment.title ++
                  "\" has been approved.",
                type := "ASSIGNMENT_APPROVED", read := false, createdAt := eff.now }
            { res := .ok "Assignment approved successfully. The student has been notified.",
              db := db3, store := otpDelete store key }

/-- The `where` filter of `GET /professor/dashboard`
(src/backend/scripts/create-admin.ts): assignments whose current reviewer is
the caller and whose status is SUBMITTED or FORWARDED. -/
def professorPendingAssignments (db : Db) (professorId : Nat) : List Assignment :=
  db.assignments.filter (fun a =>
    a.reviewerId == some professorId && (a.status == "SUBMITTED" || a.status == "FORWARDED"))

/-- Embeds `GET /professor/dashboard`: gated by
`requireRole('PROFESSOR', 'HOD')`, returns the pending assignments of the
caller. -/
def professorDashboard (db : Db) (caller : AuthUser) : Outcome × List Assignment :=
  if !(requireRole ["PROFESSOR", "HOD"] caller) then
    (.err 403 "Forbidden: insufficient role", [])
  else
    (.ok "Professor dashboard retrieved successfully", professorPendingAssignments db caller.id)

/-- The email regex `^[^\s@]+@[^\s@]+\.[^\s@]+$` of the admin routes: some
text without whitespace or `@`, an `@`, then a domain containing a dot with
nonempty pieces on both sides. -/
def emailFormatOk (email : String) : Bool :=
  match email.data.splitOn '@' with
  | [local_, domain] =>
    !local_.isEmpty && !domain.isEmpty &&
    local_.all (fun c => !isJsWhitespace c) && domain.all (fun c => !isJsWhitespace c) &&
    ((domain.drop 1).dropLast.contains '.')
  | _ => false

/-- Embeds `PUT /admin/users/:id/update` (src/backend/src/routes/admin.ts):
an admin rewrites name, email, phone and department of a user (the role is
left unchanged; the optional password change is outside the modelled
state). -/
def adminUpdateUser (db : Db) (caller : AuthUser) (userId : Nat)
    (name email phone : String) (departmentId : Nat) : DbOut :=
  if caller.role != "ADMIN" then
    { res := .err 401 "Unauthorized", db := db }
  else if name == "" || email == "" || phone == "" || departmentId == 0 then
    { res := .err 400 "Missing required fields", db := db }
  else if !emailFormatOk email then
    { res := .err 400 "Invalid email format", db := db }
  else
    match findUser db userId with
    | none => { res := .err 404 "User not found", db := db }
    | some _user =>
      if (db.users.find? (fun u => u.email == email && u.id != userId)).isSome then
        { res := .err 409 "Another user with this email already exists", db := db }
      else
        match findDepartment db departmentId with
        | none => { res := .err 404 "Invalid Department", db := db }
        | some _dept =>
          { res := .ok "User updated successfully",
            db := { db with users := db.users.map (fun u =>
              if u.id == userId then
                { u with name := name, email := email, phone := phone,
                         departmentId := some departmentId }
              else u) } }

/-! ### Concrete fixtures used by witnesses and counterexamples -/

/-- Department 1 of the fixtures. -/
def dept1 : Department := { id := 1, name := "Computer Science" }

/-- Department 2 of the fixtures. -/
def dept2 : Department := { id := 2, name := "Mathematics" }

/-- Student user 3, department 1. -/
def student3 : User :=
  { id := 3, name := "Sam Student", email := "s3@uni.edu", phone := "111",
    role := "STUDENT", departmentId := some 1 }

/-- Professor user 9, department 1. -/
def prof9 : User :=
  { id := 9, name := "Pia Professor", email := "p9@uni.edu", phone := "222",
    role := "PROFESSOR", departmentId := some 1 }

/-- HOD user 12, department 1. -/
def hod12 : User :=
  { id := 12, name := "Hana Head", email := "h12@uni.edu", phone := "333",
    role := "HOD", departmentId := some 1 }

/-- Professor user 21, department 2. -/
def prof21 : User :=
  { id := 21, name := "Max Mentor", email := "m21@uni.edu", phone := "444",
    role := "PROFESSOR", departmentId := some 2 }

/-- JWT payload of student 3. -/
def authStudent3 : AuthUser := { id := 3, email := "s3@uni.edu", role := "STUDENT" }

/-- JWT payload of professor 9. -/
def authProf9 : AuthUser := { id := 9, email := "p9@uni.edu", role := "PROFESSOR" }

/-- JWT payload of HOD 12. -/
def authHod12 : AuthUser := { id := 12, email := "h12@uni.edu", role := "HOD" }

/-- JWT payload of an admin account. -/
def authAdmin1 : AuthUser := { id := 1, email := "admin@university.edu", role := "ADMIN" }

/-- Assignment 7 of student 3, still a draft. -/
def asg7Draft : Assignment :=
  { id := 7, title := "Graph Algorithms Report", description := none,
    category := "ASSIGNMENT", status := "DRAFT", filePath := some "uploads/a7.pdf",
    studentId := 3, reviewerId := none, createdAt := 100, submittedAt := none }

/-- Assignment 7 submitted to professor 9. -/
def asg7Submitted : Assignment :=
  { asg7Draft with status := "SUBMITTED", reviewerId := some 9, submittedAt := some 500 }

/-- Assignment 7 forwarded, with professor 9 as current reviewer. -/
def asg7Forwarded : Assignment :=
  { asg7Draft with status := "FORWARDED", reviewerId := some 9, submittedAt := some 500 }

/-- Assignment 7 submitted, with HOD 12 as current reviewer. -/
def asg7HodSubmitted : Assignment :=
  { asg7Draft with status := "SUBMITTED", reviewerId := some 12, submittedAt := some 500 }

/-- Users shared by the fixture databases. -/
def baseUsers : List User := [student3, prof9, hod12, prof21]

/-- Fixture database with assignment 7 in DRAFT. -/
def dbDraft : Db :=
  { departments := [dept1, dept2], users := baseUsers, assignments := [asg7Draft],
    history := [], notifications := [] }

/-- Fixture database with assignment 7 SUBMITTED to professor 9. -/
def dbSubmitted : Db := { dbDraft with assignments := [asg7Submitted] }

/-- Fixture database with assignment 7 FORWARDED, reviewer 9. -/
def dbForwarded : Db := { dbDraft with assignments := [asg7Forwarded] }

/-- Fixture database with assignment 7 SUBMITTED to HOD 12. -/
def dbHodReview : Db := { dbDraft with assignments := [asg7HodSubmitted] }

/-- Effect oracle where every fallible step succeeds. -/
def effOk : Effects :=
  { now := 1000000, otpCode := "123456", emailOk := true, historyOk := true,
    notifOk := true, txOk := true }

/-- Effect oracle where only the guarded history write fails. -/
def effNoHistory : Effects := { effOk with historyOk := false }

/-! ### Helper lemmas -/

theorem assignments_appendHistory (db : Db) (h : HistoryEntry) :
    (appendHistory db h).assignments = db.assignments := rfl

theorem assignments_appendNotice (db : Db) (n : Notification) :
    (appendNotice db n).assignments = db.assignments := rfl

theorem history_appendHistory (db : Db) (h : HistoryEntry) :
    (appendHistory db h).history = db.history ++ [h] := rfl

theorem history_appendNotice (db : Db) (n : Notification) :
    (appendNotice db n).history = db.history := rfl

theorem history_updateAssignment (db : Db) (aid : Nat) (f : Assignment → Assignment) :
    (updateAssignment db aid f).history = db.history := rfl

theorem notices_appendHistory (db : Db) (h : HistoryEntry) :
    (appendHistory db h).notifications = db.notifications := rfl

theorem notices_appendNotice (db : Db) (n : Notification) :
    (appendNotice db n).notifications = db.notifications ++ [n] := rfl

theorem notices_updateAssignment (db : Db) (aid : Nat) (f : Assignment → Assignment) :
    (updateAssignment db aid f).notifications = db.notifications := rfl

theorem statusOf_appendHistory (db : Db) (h : HistoryEntry) (aid : Nat) :
    statusOf (appendHistory db h) aid = statusOf db aid := rfl

theorem statusOf_appendNotice (db : Db) (n : Notification) (aid : Nat) :
    statusOf (appendNotice db n) aid = statusOf db aid := rfl

theorem assignmentById_appendHistory (db : Db) (h : HistoryEntry) (aid : Nat) :
    assignmentById (appendHistory db h) aid = assignmentById db aid := rfl

theorem assignmentById_appendNotice (db : Db) (n : Notification) (aid : Nat) :
    assignmentById (appendNotice db n) aid = assignmentById db aid := rfl

theorem find?_map_update (l : List Assignment) (aid : Nat) (f : Assignment → Assignment)
    (hf : ∀ a, (f a).id = a.id) :
    (l.map (fun a => if a.id == aid then f a else a)).find? (fun a => a.id == aid)
      = (l.find? (fun a => a.id == aid)).map f := by
  induction l with
  | nil => rfl
  | cons x xs ih =>
    rw [List.map_cons]
    by_cases hx : x.id = aid
    · have hb : (x.id == aid) = true := beq_iff_eq.mpr hx
      have hfb : ((f x).id == aid) = true := beq_iff_eq.mpr (by rw [hf, hx])
      rw [if_pos hb]
      simp only [List.find?, hfb, hb, Option.map_some']
    · have hb : (x.id == aid) = false := beq_eq_false_iff_ne.mpr hx
      have hb' : ¬((x.id == aid) = true) := by simp [hb]
      rw [if_neg hb']
      simp only [List.find?, hb]
      exact ih

theorem statusOf_update_const (db : Db) (aid : Nat) (f : Assignment → Assignment) (st : String)
    (hf : ∀ a, (f a).id = a.id) (hst : ∀ a, (f a).status = st)
    (hsome : (db.assignments.find? (fun a => a.id == aid)).isSome = true) :
    statusOf (updateAssignment db aid f) aid = some st := by
  obtain ⟨a, ha⟩ := Option.isSome_iff_exists.mp hsome
  show ((updateAssignment db aid f).assignments.find? (fun x => x.id == aid)).map
      Assignment.status = some st
  rw [show (updateAssignment db aid f).assignments
      = db.assignments.map (fun a => if a.id == aid then f a else a) from rfl]
  rw [find?_map_update _ _ _ hf, ha, Option.map_some', Option.map_some', hst]

theorem byId_isSome_of_review (db : Db) (aid rid : Nat) (sts : List String) (a : Assignment)
    (h : findReviewAssignment db aid rid sts = some a) :
    (db.assignments.find? (fun x => x.id == aid)).isSome = true := by
  have hmem := List.mem_of_find?_eq_some h
  have hp := List.find?_some h
  simp only [Bool.and_eq_true] at hp
  exact List.find?_isSome.mpr ⟨a, hmem, hp.1.1⟩

theorem byId_isSome_of_owned (db : Db) (aid sid : Nat) (a : Assignment)
    (h : findOwnedAssignment db aid sid = some a) :
    (db.assignments.find? (fun x => x.id == aid)).isSome = true := by
  have hmem := List.mem_of_find?_eq_some h
  have hp := List.find?_some h
  simp only [Bool.and_eq_true] at hp
  exact List.find?_isSome.mpr ⟨a, hmem, hp.1⟩

theorem byId_update_map_const (db : Db) (aid : Nat) (f : Assignment → Assignment)
    {β : Type} (g : Assignment → β) (v : β)
    (hf : ∀ a, (f a).id = a.id) (hg : ∀ a, g (f a) = v)
    (hsome : (db.assignments.find? (fun a => a.id == aid)).isSome = true) :
    (assignmentById (updateAssignment db aid f) aid).map g = some v := by
  obtain ⟨a, ha⟩ := Option.isSome_iff_exists.mp hsome
  show ((updateAssignment db aid f).assignments.find? (fun x => x.id == aid)).map g = some v
  rw [show (updateAssignment db aid f).assignments
      = db.assignments.map (fun a => if a.id == aid then f a else a) from rfl]
  rw [find?_map_update _ _ _ hf, ha, Option.map_some', Option.map_some', hg]

theorem otpGet_otpSet (store : OtpStore) (k : OtpKey) (v : OtpRecord) :
    otpGet (otpSet store k v) k = some v := by
  simp [otpGet, otpSet, List.find?]

theorem otpGet_otpDelete (store : OtpStore) (k : OtpKey) :
    otpGet (otpDelete store k) k = none := by
  simp [otpGet, otpDelete]

theorem otpCountKey_otpDelete (store : OtpStore) (k : OtpKey) :
    otpCountKey (otpDelete store k) k = 0 := by
  simp [otpCountKey, otpDelete]

theorem otpCountKey_otpSet (store : OtpStore) (k : OtpKey) (v : OtpRecord) :
    otpCountKey (otpSet store k v) k = 1 := by
  have h := otpCountKey_otpDelete store k
  simp only [otpCountKey, otpDelete] at h
  simp [otpCountKey, otpSet, List.countP_cons, h]

/-- Trimming never lengthens a string. -/
theorem jsTrim_length_le (s : String) : (jsTrim s).length ≤ s.length := by
  show (((s.data.dropWhile isJsWhitespace).reverse.dropWhile
      isJsWhitespace).reverse).length ≤ s.data.length
  rw [List.length_reverse]
  calc ((s.data.dropWhile isJsWhitespace).reverse.dropWhile isJsWhitespace).length
      ≤ (s.data.dropWhile isJsWhitespace).reverse.length :=
        (List.dropWhile_sublist _).length_le
    _ = (s.data.dropWhile isJsWhitespace).length := List.length_reverse _
    _ ≤ s.data.length := (List.dropWhile_sublist _).length_le

/-- A verify that answers success has deleted the OTP record of its key. -/
theorem verify_ok_deletes_record (db : Db) (store : OtpStore) (eff : Effects)
    (caller : AuthUser) (aid : Nat) (otp : String) (remarks signature : Option String) :
    (verifyApprovalOtp db store eff caller aid otp remarks signature).res.isOk = true →
    otpGet (verifyApprovalOtp db store eff caller aid otp remarks signature).store
      (aid, caller.id) = none := by
  simp only [verifyApprovalOtp]
  repeat' split
  all_goals intro h
  all_goals first
    | exact otpGet_otpDelete _ _
    | simp [Outcome.isOk] at h

/-- A verify that answers Expired has deleted the OTP record of its key. -/
theorem verify_expired_deletes_record (db : Db) (store : OtpStore) (eff : Effects)
    (caller : AuthUser) (aid : Nat) (otp : String) (remarks signature : Option String) :
    (verifyApprovalOtp db store eff caller aid otp remarks signature).res
      = Outcome.err 400 "OTP has expired. Please request a new one." →
    otpGet (verifyApprovalOtp db store eff caller aid otp remarks signature).store
      (aid, caller.id) = none := by
  simp only [verifyApprovalOtp]
  repeat' split
  all_goals intro h
  all_goals first
    | exact otpGet_otpDelete _ _
    | simp at h

/-- All-or-none behaviour of the reject route: every request leaves the
database untouched or performs the status update, exactly one history
append and exactly one notification create together. -/
theorem rejectAssignment_all_or_none (db : Db) (eff : Effects) (caller : AuthUser)
    (aid : Nat) (remark : Option String) :
    (rejectAssignment db eff caller aid remark).db = db ∨
    ((rejectAssignment db eff caller aid remark).db.history.length = db.history.length + 1 ∧
     (rejectAssignment db eff caller aid remark).db.notifications.length
        = db.notifications.length + 1 ∧
     statusOf (rejectAssignment db eff caller aid remark).db aid = some "REJECTED") := by
  simp only [rejectAssignment]
  split
  · exact Or.inl rfl
  split
  · exact Or.inl rfl
  split
  · exact Or.inl rfl
  next assignment heq =>
    split
    · exact Or.inl rfl
    · have hsome := byId_isSome_of_review db aid caller.id ["SUBMITTED"] assignment heq
      refine Or.inr ⟨?_, ?_, ?_⟩
      · simp [history_appendNotice, history_appendHistory, history_updateAssignment]
      · simp [notices_appendNotice, notices_appendHistory, notices_updateAssignment]
      · simp only [statusOf_appendNotice, statusOf_appendHistory]
        exact statusOf_update_const db aid _ "REJECTED" (fun _ => rfl) (fun _ => rfl) hsome

/-- All-or-none behaviour of the forward route. -/
theorem forwardAssignment_all_or_none (db : Db) (eff : Effects) (caller : AuthUser)
    (aid : Nat) (newReviewerId : Option Nat) (note : Option String) :
    (forwardAssignment db eff caller aid newReviewerId note).db = db ∨
    ((forwardAssignment db eff caller aid newReviewerId note).db.history.length
        = db.history.length + 1 ∧
     (forwardAssignment db eff caller aid newReviewerId note).db.notifications.length
        = db.notifications.length + 1 ∧
     statusOf (forwardAssignment db eff caller aid newReviewerId note).db aid
        = some "FORWARDED") := by
  simp only [forwardAssignment]
  split
  · exact Or.inl rfl
  split
  · exact Or.inl rfl
  split
  · exact Or.inl rfl
  split
  · exact Or.inl rfl
  split
  · exact Or.inl rfl
  split
  · exact Or.inl rfl
  split
  · exact Or.inl rfl
  next assignment heq =>
    split
    · exact Or.inl rfl
    · have hsome := byId_isSome_of_review db aid caller.id ["SUBMITTED", "FORWARDED"]
        assignment heq
      refine Or.inr ⟨?_, ?_, ?_⟩
      · simp [history_appendNotice, history_appendHistory, history_updateAssignment]
      · simp [notices_appendNotice, notices_appendHistory, notices_updateAssignment]
      · simp only [statusOf_appendNotice, statusOf_appendHistory]
        exact statusOf_update_const db aid _ "FORWARDED" (fun _ => rfl) (fun _ => rfl) hsome

/-- All-or-none behaviour of the approve/verify route on the database
(the OTP map is separate). -/
theorem verifyApprovalOtp_all_or_none (db : Db) (store : OtpStore) (eff : Effects)
    (caller : AuthUser) (aid : Nat) (otp : String) (remarks signature : Option String) :
    (verifyApprovalOtp db store eff caller aid otp remarks signature).db = db ∨
    ((verifyApprovalOtp db store eff caller aid otp remarks signature).db.history.length
        = db.history.length + 1 ∧
     (verifyApprovalOtp db store eff caller aid otp remarks signature).db.notifications.length
        = db.notifications.length + 1 ∧
     statusOf (verifyApprovalOtp db store eff caller aid otp remarks signature).db aid
        = some "APPROVED") := by
  simp only [verifyApprovalOtp]
  split
  · exact Or.inl rfl
  split
  · exact Or.inl rfl
  split
  · exact Or.inl rfl
  split
  · exact Or.inl rfl
  split
  · exact Or.inl rfl
  split
  · exact Or.inl rfl
  next assignment heq =>
    split
    · exact Or.inl rfl
    · have hsome := byId_isSome_of_review db aid caller.id ["SUBMITTED"] assignment heq
      refine Or.inr ⟨?_, ?_, ?_⟩
      · simp [history_appendNotice, history_appendHistory, history_updateAssignment]
      · simp [notices_appendNotice, notices_appendHistory, notices_updateAssignment]
      · simp only [statusOf_appendNotice, statusOf_appendHistory]
        exact statusOf_update_const db aid _ "APPROVED" (fun _ => rfl) (fun _ => rfl) hsome

/-! ### Claim theorems -/

/-- C1: the REJECTED → (resubmit) → SUBMITTED leg of the lifecycle is broken
in the code.  A reject by the assigned reviewer succeeds — answering
`Assignment rejected. The student has been notified and can resubmit.` —
and clears `reviewerId`; the student resubmit on the resulting state is
then refused with 400 `Original reviewer not found. Cannot resubmit.`,
because the resubmit route requires a non-null `reviewerId`.  The status
stays REJECTED, no SUBMITTED history row and no reviewer notification are
written. -/
theorem c1_reject_then_resubmit_fails :
    (rejectAssignment dbSubmitted effOk authProf9 7
        (some "Needs more detailed citations")).res
      = Outcome.ok "Assignment rejected. The student has been notified and can resubmit." ∧
    statusOf (rejectAssignment dbSubmitted effOk authProf9 7
        (some "Needs more detailed citations")).db 7 = some "REJECTED" ∧
    (assignmentById (rejectAssignment dbSubmitted effOk authProf9 7
        (some "Needs more detailed citations")).db 7).map Assignment.reviewerId
      = some none ∧
    (resubmitAssignment (rejectAssignment dbSubmitted effOk authProf9 7
        (some "Needs more detailed citations")).db effOk authStudent3 7 none none).res
      = Outcome.err 400 "Original reviewer not found. Cannot resubmit." ∧
    (resubmitAssignment (rejectAssignment dbSubmitted effOk authProf9 7
        (some "Needs more detailed citations")).db effOk authStudent3 7 none none).db
      = (rejectAssignment dbSubmitted effOk authProf9 7
        (some "Needs more detailed citations")).db := by decide

/-- C2 counterexample: the claim fails for `submit`.  On the draft fixture,
a submit whose try/catch-guarded history write fails still answers 200 and
persists both the status change and the reviewer notification while writing
no history row — so a status change, history append and notification create
do not stand or fall together. -/
theorem c2_submit_history_swallowed :
    (submitAssignment dbDraft effNoHistory authStudent3 7 (some 9)).res
      = Outcome.ok "Assignment submitted successfully for review" ∧
    statusOf (submitAssignment dbDraft effNoHistory authStudent3 7 (some 9)).db 7
      = some "SUBMITTED" ∧
    (submitAssignment dbDraft effNoHistory authStudent3 7 (some 9)).db.history = [] ∧
    (submitAssignment dbDraft effNoHistory authStudent3 7 (some 9)).db.notifications.length
      = 1 := by decide

/-- C2 (amended): the reject, forward and approve/verify routes wrap the
status update, history append and notification create in one
`prisma.$transaction`, so each such request either leaves the database
untouched or performs the status change together with exactly one history
row and one notification; the submit route (and likewise resubmit) instead
updates the status first and runs the history and notification creates in
try/catch blocks whose failures are logged and swallowed, so a successful
submit can persist the status change without its history row. -/
theorem c2_atomicity_only_for_reviewer_routes :
    (∀ (db : Db) (eff : Effects) (caller : AuthUser) (aid : Nat) (remark : Option String),
      (rejectAssignment db eff caller aid remark).db = db ∨
      ((rejectAssignment db eff caller aid remark).db.history.length
          = db.history.length + 1 ∧
       (rejectAssignment db eff caller aid remark).db.notifications.length
          = db.notifications.length + 1 ∧
       statusOf (rejectAssignment db eff caller aid remark).db aid = some "REJECTED")) ∧
    (∀ (db : Db) (eff : Effects) (caller : AuthUser) (aid : Nat)
        (newReviewerId : Option Nat) (note : Option String),
      (forwardAssignment db eff caller aid newReviewerId note).db = db ∨
      ((forwardAssignment db eff caller aid newReviewerId note).db.history.length
          = db.history.length + 1 ∧
       (forwardAssignment db eff caller aid newReviewerId note).db.notifications.length
          = db.notifications.length + 1 ∧
       statusOf (forwardAssignment db eff caller aid newReviewerId note).db aid
          = some "FORWARDED")) ∧
    (∀ (db : Db) (store : OtpStore) (eff : Effects) (caller : AuthUser) (aid : Nat)
        (otp : String) (remarks signature : Option String),
      (verifyApprovalOtp db store eff caller aid otp remarks signature).db = db ∨
      ((verifyApprovalOtp db store eff caller aid otp remarks signature).db.history.length
          = db.history.length + 1 ∧
       (verifyApprovalOtp db store eff caller aid otp remarks
          signature).db.notifications.length = db.notifications.length + 1 ∧
       statusOf (verifyApprovalOtp db store eff caller aid otp remarks signature).db aid
          = some "APPROVED")) ∧
    ((submitAssignment dbDraft effNoHistory authStudent3 7 (some 9)).res
        = Outcome.ok "Assignment submitted successfully for review" ∧
     statusOf (submitAssignment dbDraft effNoHistory authStudent3 7 (some 9)).db 7
        = some "SUBMITTED" ∧
     (submitAssignment dbDraft effNoHistory authStudent3 7 (some 9)).db.history = []) :=
  ⟨rejectAssignment_all_or_none, forwardAssignment_all_or_none,
   verifyApprovalOtp_all_or_none, by decide⟩

/-- C3: on a FORWARDED assignment the current reviewer cannot approve or
reject, only forward again.  The dashboard query lists the assignment as
pending the reviewers action, yet `request-otp` and `reject` filter on
status SUBMITTED only and answer 404 `Assignment not found or not pending
your review`, while a repeat forward succeeds. -/
theorem c3_forwarded_only_forward_permitted :
    (professorPendingAssignments dbForwarded 9).map Assignment.id = [7] ∧
    (requestApprovalOtp dbForwarded [] effOk authProf9 7 none none).res
      = Outcome.err 404 "Assignment not found or not pending your review" ∧
    (rejectAssignment dbForwarded effOk authProf9 7
        (some "Needs substantial revision before acceptance")).res
      = Outcome.err 404 "Assignment not found or not pending your review" ∧
    (forwardAssignment dbForwarded effOk authProf9 7 (some 12) none).res
      = Outcome.ok "Assignment forwarded successfully. The new reviewer has been notified."
    := by decide

/-- C4: a HOD who is the current reviewer of a SUBMITTED assignment sees it
on the professor dashboard (the dashboard route admits role HOD), but the
approve/request-otp, approve/verify and reject routes are gated by
`requireRole('PROFESSOR')` alone, so every reviewing action of the HOD is
refused with 403 `Forbidden: insufficient role`. -/
theorem c4_hod_reviewer_blocked_by_role_gate :
    (professorDashboard dbHodReview authHod12).1
      = Outcome.ok "Professor dashboard retrieved successfully" ∧
    (professorPendingAssignments dbHodReview 12).map Assignment.id = [7] ∧
    (requestApprovalOtp dbHodReview [] effOk authHod12 7 none none).res
      = Outcome.err 403 "Forbidden: insufficient role" ∧
    (verifyApprovalOtp dbHodReview [] effOk authHod12 7 "123456" none none).res
      = Outcome.err 403 "Forbidden: insufficient role" ∧
    (rejectAssignment dbHodReview effOk authHod12 7
        (some "Needs substantial revision before acceptance")).res
      = Outcome.err 403 "Forbidden: insufficient role" := by decide

/-- OTP request of professor 9 on the submitted fixture: stores the drawn
code `123456` under key `(7, 9)`. -/
def c5requested : OtpOut := requestApprovalOtp dbSubmitted [] effOk authProf9 7 none none

/-- First verify with the stored code: approves assignment 7 and consumes
the record. -/
def c5first : OtpOut :=
  verifyApprovalOtp dbSubmitted c5requested.store effOk authProf9 7 "123456" none none

/-- Second verify with the very same code on the resulting state. -/
def c5second : OtpOut :=
  verifyApprovalOtp c5first.db c5first.store effOk authProf9 7 "123456" none none

/-- C5 counterexample: verify called twice with the same code yields success
and then the no-record answer `No OTP found. Please request a new one.`,
which is neither the Expired nor the InvalidCode failure the claim names. -/
theorem c5_second_verify_answers_no_otp :
    c5first.res
      = Outcome.ok "Assignment approved successfully. The student has been notified." ∧
    c5second.res = Outcome.err 400 "No OTP found. Please request a new one." ∧
    c5second.res ≠ Outcome.err 400 "OTP has expired. Please request a new one." ∧
    c5second.res ≠ Outcome.err 400 "Invalid OTP. Please try again." := by decide

/-- C5 (amended): once the OTP record of `(assignmentId, approverId)` has
been consumed — by a successful approval, or deleted because verify found it
expired — a later `verifyApprovalOtp` for the same key with no intervening
request can never succeed: it fails with the no-record answer
400 `No OTP found. Please request a new one.` (not the Expired or
InvalidCode one) and leaves both the database and the OTP store unchanged. -/
theorem c5_consumed_code_never_verifies_again (db : Db) (store : OtpStore)
    (eff eff2 : Effects) (caller : AuthUser) (aid : Nat) (code code2 : String)
    (r s r2 s2 : Option String)
    (hrole : caller.role = "PROFESSOR") (hcode2 : code2 ≠ "")
    (hconsumed :
      (verifyApprovalOtp db store eff caller aid code r s).res.isOk = true ∨
      (verifyApprovalOtp db store eff caller aid code r s).res
        = Outcome.err 400 "OTP has expired. Please request a new one.") :
    (verifyApprovalOtp (verifyApprovalOtp db store eff caller aid code r s).db
        (verifyApprovalOtp db store eff caller aid code r s).store
        eff2 caller aid code2 r2 s2).res
      = Outcome.err 400 "No OTP found. Please request a new one." ∧
    (verifyApprovalOtp (verifyApprovalOtp db store eff caller aid code r s).db
        (verifyApprovalOtp db store eff caller aid code r s).store
        eff2 caller aid code2 r2 s2).db
      = (verifyApprovalOtp db store eff caller aid code r s).db ∧
    (verifyApprovalOtp (verifyApprovalOtp db store eff caller aid code r s).db
        (verifyApprovalOtp db store eff caller aid code r s).store
        eff2 caller aid code2 r2 s2).store
      = (verifyApprovalOtp db store eff caller aid code r s).store := by
  have hnone : otpGet (verifyApprovalOtp db store eff caller aid code r s).store
      (aid, caller.id) = none := by
    rcases hconsumed with h | h
    · exact verify_ok_deletes_record db store eff caller aid code r s h
    · exact verify_expired_deletes_record db store eff caller aid code r s h
  have hb : (code2 == "") = false := beq_eq_false_iff_ne.mpr hcode2
  have hro : requireRole ["PROFESSOR"] caller = true := by simp [requireRole, hrole]
  generalize hgen : verifyApprovalOtp db store eff caller aid code r s = out1 at hnone ⊢
  simp [verifyApprovalOtp, hro, hb, hnone]

/-- C5 witness: the amended theorem applied to the concrete double-verify
run of the fixtures. -/
theorem c5_consumed_code_never_verifies_again_witness :
    c5second.res = Outcome.err 400 "No OTP found. Please request a new one." ∧
    c5second.db = c5first.db ∧
    c5second.store = c5first.store :=
  c5_consumed_code_never_verifies_again dbSubmitted c5requested.store effOk effOk
    authProf9 7 "123456" "123456" none none none none rfl (by decide) (Or.inl (by decide))

/-- OTP record of professor 9 for assignment 7, expiring at time 1600000. -/
def otpRec9 : OtpRecord :=
  { otp := "123456", expiresAt := 1600000, remarks := none, signature := none }

/-- OTP store holding exactly the record of key `(7, 9)`. -/
def store9 : OtpStore := [((7, 9), otpRec9)]

/-- Effect oracle whose clock is past the expiry of `otpRec9`. -/
def effLate : Effects := { effOk with now := 1700000 }

/-- C6: with a record stored for the key, a verify after the TTL answers
400 `OTP has expired. Please request a new one.` and deletes the record,
and a verify in time with a mismatching code answers
400 `Invalid OTP. Please try again.` and retains the record; in both
failure cases the database — status, history and notifications — is
untouched. -/
theorem c6_verify_failure_branches_safe (db : Db) (store : OtpStore) (eff : Effects)
    (caller : AuthUser) (aid : Nat) (code : String) (r s : Option String) (rec : OtpRecord)
    (hrole : caller.role = "PROFESSOR") (hcode : code ≠ "")
    (hget : otpGet store (aid, caller.id) = some rec) :
    (eff.now > rec.expiresAt →
      (verifyApprovalOtp db store eff caller aid code r s).res
        = Outcome.err 400 "OTP has expired. Please request a new one." ∧
      (verifyApprovalOtp db store eff caller aid code r s).store
        = otpDelete store (aid, caller.id) ∧
      otpGet (verifyApprovalOtp db store eff caller aid code r s).store
        (aid, caller.id) = none ∧
      (verifyApprovalOtp db store eff caller aid code r s).db = db) ∧
    (eff.now ≤ rec.expiresAt → rec.otp ≠ jsTrim code →
      (verifyApprovalOtp db store eff caller aid code r s).res
        = Outcome.err 400 "Invalid OTP. Please try again." ∧
      (verifyApprovalOtp db store eff caller aid code r s).store = store ∧
      (verifyApprovalOtp db store eff caller aid code r s).db = db) := by
  have hb : (code == "") = false := beq_eq_false_iff_ne.mpr hcode
  have hro : requireRole ["PROFESSOR"] caller = true := by simp [requireRole, hrole]
  constructor
  · intro hexp
    simp [verifyApprovalOtp, hro, hb, hget, hexp, otpGet_otpDelete]
  · intro hle hne
    have hnexp : ¬(eff.now > rec.expiresAt) := by omega
    have hbne : (rec.otp != jsTrim code) = true := bne_iff_ne.mpr hne
    simp [verifyApprovalOtp, hro, hb, hget, hnexp, hbne]

/-- C6 witness: the theorem applied to the fixtures, once with the clock
past the TTL and the correct code, once in time with a wrong code. -/
theorem c6_verify_failure_branches_safe_witness :
    ((verifyApprovalOtp dbSubmitted store9 effLate authProf9 7 "123456" none none).res
        = Outcome.err 400 "OTP has expired. Please request a new one." ∧
     (verifyApprovalOtp dbSubmitted store9 effLate authProf9 7 "123456" none none).store
        = otpDelete store9 (7, 9) ∧
     otpGet (verifyApprovalOtp dbSubmitted store9 effLate authProf9 7 "123456"
        none none).store (7, 9) = none ∧
     (verifyApprovalOtp dbSubmitted store9 effLate authProf9 7 "123456" none none).db
        = dbSubmitted) ∧
    ((verifyApprovalOtp dbSubmitted store9 effOk authProf9 7 "654321" none none).res
        = Outcome.err 400 "Invalid OTP. Please try again." ∧
     (verifyApprovalOtp dbSubmitted store9 effOk authProf9 7 "654321" none none).store
        = store9 ∧
     (verifyApprovalOtp dbSubmitted store9 effOk authProf9 7 "654321" none none).db
        = dbSubmitted) :=
  ⟨(c6_verify_failure_branches_safe dbSubmitted store9 effLate authProf9 7 "123456"
      none none otpRec9 rfl (by decide) (by decide)).1 (by decide),
   (c6_verify_failure_branches_safe dbSubmitted store9 effOk authProf9 7 "654321"
      none none otpRec9 rfl (by decide) (by decide)).2 (by decide) (by decide)⟩

/-- C7: a reject whose remark is shorter than 10 characters (trimming never
lengthens it) fails with the 400 validation answer before any lookup or
write, leaving the whole database — assignment, history and notifications —
exactly as it was. -/
theorem c7_short_remark_rejected_without_mutation (db : Db) (eff : Effects)
    (caller : AuthUser) (aid : Nat) (remark : Option String)
    (hrole : caller.role = "PROFESSOR")
    (hlen : (remark.getD "").length < 10) :
    (rejectAssignment db eff caller aid remark).res
      = Outcome.err 400
        "Feedback is required and must be at least 10 characters so the student can improve." ∧
    (rejectAssignment db eff caller aid remark).db = db := by
  have hro : requireRole ["PROFESSOR"] caller = true := by simp [requireRole, hrole]
  have htrim : (match remark with
      | some r => jsTrim r
      | none => "").length < 10 := by
    cases remark with
    | none => simp
    | some r =>
      exact lt_of_le_of_lt (jsTrim_length_le r) (by simpa using hlen)
  simp [rejectAssignment, hro, htrim]

/-- C7 witness: the theorem applied to a reject of the submitted fixture
with the 9-character remark `too short`. -/
theorem c7_short_remark_rejected_without_mutation_witness :
    (rejectAssignment dbSubmitted effOk authProf9 7 (some "too short")).res
      = Outcome.err 400
        "Feedback is required and must be at least 10 characters so the student can improve." ∧
    (rejectAssignment dbSubmitted effOk authProf9 7 (some "too short")).db = dbSubmitted :=
  c7_short_remark_rejected_without_mutation dbSubmitted effOk authProf9 7
    (some "too short") rfl (by decide)

/-- State after the student submits the draft fixture to professor 9 (who
is then in the students department 1). -/
def c8afterSubmit : DbOut := submitAssignment dbDraft effOk authStudent3 7 (some 9)

/-- State after an admin moves professor 9 to department 2 while assignment
7 is under review by professor 9. -/
def c8afterMove : DbOut :=
  adminUpdateUser c8afterSubmit.db authAdmin1 9 "Pia Professor" "p9@uni.edu" "222" 2

/-- State after professor 9 then forwards assignment 7 to professor 21 of
department 2. -/
def c8afterForward : DbOut :=
  forwardAssignment c8afterMove.db effOk authProf9 7 (some 21) none

/-- C8 counterexample: the forward route validates the recipient against
the forwarder's department, not the owner's.  After submit and an admin
department change of the reviewer, a forward to a recipient of department 2
succeeds although the owning student is in department 1 — a successful
forward whose target department differs from the owner's. -/
theorem c8_cross_department_forward_reachable :
    c8afterSubmit.res = Outcome.ok "Assignment submitted successfully for review" ∧
    c8afterMove.res = Outcome.ok "User updated successfully" ∧
    c8afterForward.res
      = Outcome.ok "Assignment forwarded successfully. The new reviewer has been notified." ∧
    (assignmentById c8afterForward.db 7).map Assignment.reviewerId = some (some 21) ∧
    (findUser c8afterForward.db 21).map User.departmentId = some (some 2) ∧
    (assignmentById c8afterForward.db 7).map Assignment.studentId = some 3 ∧
    (findUser c8afterForward.db 3).map User.departmentId = some (some 1) := by decide

/-- C8 (amended): forward validates the target against the forwarder's
department: a successful forward always assigns a PROFESSOR/HOD of the
forwarder's department, and a target with no such user record fails with
the 400 recipient error and no state change.  Department equality with the
assignment owner therefore holds exactly when the forwarder's department
equals the owner's — which submit establishes — but not in general: after
an admin department change of the current reviewer, a successful forward
can leave the owner's department (see the counterexample). -/
theorem c8_forward_validates_forwarder_department (db : Db) (eff : Effects)
    (caller : AuthUser) (aid nrid : Nat) (note : Option String) (current : User) (d : Nat)
    (hrole : caller.role = "PROFESSOR" ∨ caller.role = "HOD")
    (hne : nrid ≠ caller.id)
    (hcur : findUser db caller.id = some current)
    (hd : current.departmentId = some d) :
    (∀ target a, findForwardRecipient db nrid d = some target →
      findReviewAssignment db aid caller.id ["SUBMITTED", "FORWARDED"] = some a →
      eff.txOk = true →
      (forwardAssignment db eff caller aid (some nrid) note).res
        = Outcome.ok "Assignment forwarded successfully. The new reviewer has been notified." ∧
      target.id = nrid ∧
      target.departmentId = some d ∧
      (∀ owner, findUser db a.studentId = some owner → owner.departmentId = some d →
        target.departmentId = owner.departmentId)) ∧
    (findForwardRecipient db nrid d = none →
      (forwardAssignment db eff caller aid (some nrid) note).res
        = Outcome.err 400
          "Selected recipient is not a valid professor or HOD in your department" ∧
      (forwardAssignment db eff caller aid (some nrid) note).db = db) := by
  have hro : requireRole ["PROFESSOR", "HOD"] caller = true := by
    rcases hrole with h | h <;> simp [requireRole, h]
  have hb : (nrid == caller.id) = false := beq_eq_false_iff_ne.mpr hne
  constructor
  · intro target a htarget ha htx
    have htarget' : db.users.find? (fun u =>
        u.id == nrid && u.departmentId == some d &&
        (u.role == "PROFESSOR" || u.role == "HOD")) = some target := htarget
    have hp := List.find?_some htarget'
    simp only [Bool.and_eq_true, beq_iff_eq] at hp
    refine ⟨?_, hp.1.1, hp.1.2, ?_⟩
    · simp [forwardAssignment, hro, hb, hcur, hd, htarget, ha, htx]
    · intro owner _ howner
      rw [hp.1.2, howner]
  · intro hnone
    constructor
    · simp [forwardAssignment, hro, hb, hcur, hd, hnone]
    · simp [forwardAssignment, hro, hb, hcur, hd, hnone]

/-- C8 witness: on the submitted fixture (reviewer and student both in
department 1), a forward to HOD 12 of department 1 succeeds and preserves
the owner's department, and a forward to professor 21 of department 2 is
refused with the 400 recipient error. -/
theorem c8_forward_validates_forwarder_department_witness :
    ((forwardAssignment dbSubmitted effOk authProf9 7 (some 12) none).res
        = Outcome.ok "Assignment forwarded successfully. The new reviewer has been notified." ∧
     hod12.id = 12 ∧
     hod12.departmentId = some 1 ∧
     hod12.departmentId = student3.departmentId) ∧
    ((forwardAssignment dbSubmitted effOk authProf9 7 (some 21) none).res
        = Outcome.err 400
          "Selected recipient is not a valid professor or HOD in your department" ∧
     (forwardAssignment dbSubmitted effOk authProf9 7 (some 21) none).db = dbSubmitted) := by
  have h1 := (c8_forward_validates_forwarder_department dbSubmitted effOk authProf9 7 12
      none prof9 1 (Or.inl rfl) (by decide) (by decide) rfl).1 hod12 asg7Submitted
      (by decide) (by decide) rfl
  have h2 := (c8_forward_validates_forwarder_department dbSubmitted effOk authProf9 7 21
      none prof9 1 (Or.inl rfl) (by decide) (by decide) rfl).2 (by decide)
  exact ⟨⟨h1.1, h1.2.1, h1.2.2.1, h1.2.2.2 student3 (by decide) rfl⟩, h2⟩

/-- C9: submitting a DRAFT assignment with no reviewer to a PROFESSOR of
the student's own department succeeds: status becomes SUBMITTED,
`submittedAt` is set to the request time, exactly one history row with
action SUBMITTED is appended and exactly one notification addressed to the
chosen reviewer is created. -/
theorem c9_submit_draft_success (db : Db) (eff : Effects) (caller : AuthUser)
    (aid rid : Nat) (a : Assignment) (reviewer student : User)
    (hrole : caller.role = "STUDENT")
    (hrid : rid ≠ 0)
    (ha : findOwnedAssignment db aid caller.id = some a)
    (hdraft : a.status = "DRAFT")
    (_hnorev : a.reviewerId = none)
    (hrev : findUserWithRole db rid "PROFESSOR" = some reviewer)
    (hstu : findUser db caller.id = some student)
    (hdept : student.departmentId = reviewer.departmentId)
    (hh : eff.historyOk = true) (hn : eff.notifOk = true) :
    (submitAssignment db eff caller aid (some rid)).res
      = Outcome.ok "Assignment submitted successfully for review" ∧
    statusOf (submitAssignment db eff caller aid (some rid)).db aid = some "SUBMITTED" ∧
    (assignmentById (submitAssignment db eff caller aid (some rid)).db aid).map
      Assignment.submittedAt = some (some eff.now) ∧
    (submitAssignment db eff caller aid (some rid)).db.history = db.history ++
      [{ assignmentId := aid, reviewerId := rid, action := "SUBMITTED",
         remark := some ("Assignment submitted for review to " ++ reviewer.name),
         signature := reviewer.name, createdAt := eff.now }] ∧
    (submitAssignment db eff caller aid (some rid)).db.notifications = db.notifications ++
      [{ userId := rid, assignmentId := aid,
         message := "New assignment \"" ++ a.title ++ "\" submitted by student for review",
         type := "ASSIGNMENT_SUBMITTED", read := false, createdAt := eff.now }] := by
  have hro : requireRole ["STUDENT", "PROFESSOR", "HOD"] caller = true := by
    simp [requireRole, hrole]
  have hb0 : (rid == 0) = false := beq_eq_false_iff_ne.mpr hrid
  have hsome := byId_isSome_of_owned db aid caller.id a ha
  refine ⟨?_, ?_, ?_, ?_, ?_⟩
  · simp [submitAssignment, hro, hb0, ha, hdraft, hrev, hstu, hdept, hh, hn]
  · simp only [submitAssignment, hro, Bool.not_true, Bool.false_eq_true, if_false, hb0,
      ha, hdraft, hrev, hstu, hdept, hh, hn]
    simp [statusOf_appendNotice, statusOf_appendHistory, hdept]
    refine statusOf_update_const db aid _ "SUBMITTED" ?_ ?_ hsome
    · intro x; rfl
    · intro x; rfl
  · simp only [submitAssignment, hro, Bool.not_true, Bool.false_eq_true, if_false, hb0,
      ha, hdraft, hrev, hstu, hdept, hh, hn]
    simp [assignmentById_appendNotice, assignmentById_appendHistory, hdept]
    have hmap := byId_update_map_const db aid
      (fun x =>
        { x with
          status := "SUBMITTED"
          reviewerId := some rid
          submittedAt := some eff.now })
      Assignment.submittedAt (some eff.now) (fun _ => rfl) (fun _ => rfl) hsome
    simpa using hmap
  · simp [submitAssignment, hro, hb0, ha, hdraft, hrev, hstu, hdept, hh, hn,
      history_appendNotice, history_appendHistory, history_updateAssignment]
  · simp [submitAssignment, hro, hb0, ha, hdraft, hrev, hstu, hdept, hh, hn,
      notices_appendNotice, notices_appendHistory, notices_updateAssignment]

/-- C9 witness: the theorem applied to the scenario of the spec — draft
assignment 7 of student 3 submitted to professor 9 of the same
department. -/
theorem c9_submit_draft_success_witness :
    (submitAssignment dbDraft effOk authStudent3 7 (some 9)).res
      = Outcome.ok "Assignment submitted successfully for review" ∧
    statusOf (submitAssignment dbDraft effOk authStudent3 7 (some 9)).db 7
      = some "SUBMITTED" ∧
    (assignmentById (submitAssignment dbDraft effOk authStudent3 7 (some 9)).db 7).map
      Assignment.submittedAt = some (some effOk.now) ∧
    (submitAssignment dbDraft effOk authStudent3 7 (some 9)).db.history =
      dbDraft.history ++
      [{ assignmentId := 7, reviewerId := 9, action := "SUBMITTED",
         remark := some ("Assignment submitted for review to " ++ prof9.name),
         signature := prof9.name, createdAt := effOk.now }] ∧
    (submitAssignment dbDraft effOk authStudent3 7 (some 9)).db.notifications =
      dbDraft.notifications ++
      [{ userId := 9, assignmentId := 7,
         message := "New assignment \"" ++ asg7Draft.title ++
           "\" submitted by student for review",
         type := "ASSIGNMENT_SUBMITTED", read := false, createdAt := effOk.now }] :=
  c9_submit_draft_success dbDraft effOk authStudent3 7 9 asg7Draft prof9 student3
    rfl (by decide) (by decide) rfl rfl (by decide) (by decide) rfl rfl rfl

/-- Effect oracle where only the OTP email send fails. -/
def effNoEmail : Effects := { effOk with emailOk := false }

/-- C10: the OTP store holds at most one record per `(assignmentId,
approverId)` key: a request stores the fresh code with a 10-minute expiry
and leaves exactly one entry for the key (a second request therefore
overwrites the first), any code differing from the freshly stored one can
no longer verify, and if the OTP email fails the freshly stored record is
deleted again so no pending code remains for the key. -/
theorem c10_otp_store_single_record (db : Db) (store : OtpStore) (eff eff2 : Effects)
    (caller : AuthUser) (aid : Nat) (r s r2 s2 : Option String) (a : Assignment)
    (hrole : caller.role = "PROFESSOR")
    (ha : findReviewAssignment db aid caller.id ["SUBMITTED"] = some a) :
    (eff.emailOk = true →
      (requestApprovalOtp db store eff caller aid r s).res
        = Outcome.ok "OTP sent to your email. Enter it below to approve." ∧
      otpGet (requestApprovalOtp db store eff caller aid r s).store (aid, caller.id)
        = some { otp := eff.otpCode, expiresAt := eff.now + OTP_EXPIRY_MS,
                 remarks := truthyOpt r, signature := truthyOpt s } ∧
      otpCountKey (requestApprovalOtp db store eff caller aid r s).store
        (aid, caller.id) = 1) ∧
    (eff.emailOk = true → ∀ code, jsTrim code ≠ eff.otpCode →
      (verifyApprovalOtp db (requestApprovalOtp db store eff caller aid r s).store eff2
        caller aid code r2 s2).res.isOk = false) ∧
    (eff.emailOk = false →
      (requestApprovalOtp db store eff caller aid r s).res
        = Outcome.err 500 "Failed to send OTP to your email. Please try again." ∧
      otpGet (requestApprovalOtp db store eff caller aid r s).store (aid, caller.id)
        = none) := by
  have hro : requireRole ["PROFESSOR"] caller = true := by simp [requireRole, hrole]
  refine ⟨?_, ?_, ?_⟩
  · intro hemail
    simp [requestApprovalOtp, hro, ha, hemail, otpGet_otpSet, otpCountKey_otpSet]
  · intro hemail code hne
    have hstore : (requestApprovalOtp db store eff caller aid r s).store
        = otpSet store (aid, caller.id)
          { otp := eff.otpCode, expiresAt := eff.now + OTP_EXPIRY_MS,
            remarks := truthyOpt r, signature := truthyOpt s } := by
      simp [requestApprovalOtp, hro, ha, hemail]
    rw [hstore]
    by_cases hc : code = ""
    · simp [verifyApprovalOtp, hro, hc, Outcome.isOk]
    · have hcb : (code == "") = false := beq_eq_false_iff_ne.mpr hc
      have hbne : (eff.otpCode != jsTrim code) = true :=
        bne_iff_ne.mpr (fun h => hne (h ▸ rfl))
      by_cases hex : eff2.now > eff.now + OTP_EXPIRY_MS
      · simp [verifyApprovalOtp, hro, hcb, otpGet_otpSet, hex, Outcome.isOk]
      · simp [verifyApprovalOtp, hro, hcb, otpGet_otpSet, hex, hbne, Outcome.isOk]
  · intro hemail
    simp [requestApprovalOtp, hro, ha, hemail, otpGet_otpDelete]

/-- C10 witness: the theorem applied to the submitted fixture — a request
stores `123456` as the single record of key `(7, 9)`, the differing code
`999999` does not verify against it, and a request whose email send fails
leaves no record for the key. -/
theorem c10_otp_store_single_record_witness :
    ((requestApprovalOtp dbSubmitted store9 effOk authProf9 7 none none).res
        = Outcome.ok "OTP sent to your email. Enter it below to approve." ∧
     otpGet (requestApprovalOtp dbSubmitted store9 effOk authProf9 7 none none).store
        (7, 9)
        = some { otp := "123456", expiresAt := effOk.now + OTP_EXPIRY_MS,
                 remarks := none, signature := none } ∧
     otpCountKey (requestApprovalOtp dbSubmitted store9 effOk authProf9 7
        none none).store (7, 9) = 1) ∧
    ((verifyApprovalOtp dbSubmitted (requestApprovalOtp dbSubmitted store9 effOk authProf9
        7 none none).store effOk authProf9 7 "999999" none none).res.isOk = false) ∧
    ((requestApprovalOtp dbSubmitted store9 effNoEmail authProf9 7 none none).res
        = Outcome.err 500 "Failed to send OTP to your email. Please try again." ∧
     otpGet (requestApprovalOtp dbSubmitted store9 effNoEmail authProf9 7
        none none).store (7, 9) = none) :=
  ⟨(c10_otp_store_single_record dbSubmitted store9 effOk effOk authProf9 7
      none none none none asg7Submitted rfl (by decide)).1 rfl,
   (c10_otp_store_single_record dbSubmitted store9 effOk effOk authProf9 7
      none none none none asg7Submitted rfl (by decide)).2.1 rfl "999999" (by decide),
   (c10_otp_store_single_record dbSubmitted store9 effNoEmail effOk authProf9 7
      none none none none asg7Submitted rfl (by decide)).2.2 rfl⟩

end AssignApproval
